import Mathlib

/-!
Verification of the chat-client single-page application (src/App.jsx).

Shallow embedding of the client's session/auth state management and the
chat view's state handling, translated from `src/App.jsx`:

* `localStorage` is modelled as an association list `Storage`;
* every `useAuth()` call site gets its own hook state (React custom hooks
  share logic, not state), so `App`, `AuthScreen` and `ChatApp` each carry
  an independent `token` value in the model, all hydrated from storage at
  mount time;
* network calls are modelled by the `Request` value the code would pass to
  `fetch`, with the backend's response supplied as an explicit argument to
  the continuation;
* the chat view is a small event-driven state machine (`ChatState`,
  `CEvent`, `cstep`): each event applies the corresponding `setState`
  calls and then re-runs the two `useEffect` bodies whose dependency
  arrays changed, collecting the requests they issue.
-/

/-! ## localStorage -/

/-- Browser `localStorage`, as an association list from keys to values. -/
abbrev Storage := List (String × String)

/-- Model of `localStorage.getItem(k)`. -/
def getItem (s : Storage) (k : String) : Option String :=
  (s.find? (fun p => p.1 == k)).map (·.2)

/-- Model of `localStorage.setItem(k, v)`: the key now maps to `v`. -/
def setItem (s : Storage) (k v : String) : Storage :=
  (k, v) :: s.filter (fun p => p.1 != k)

/-- Model of `localStorage.removeItem(k)`. -/
def removeItem (s : Storage) (k : String) : Storage :=
  s.filter (fun p => p.1 != k)

/-! ## Data model (App.jsx lines 3, 107-112) -/

/-- Value of `API_BASE`: the `VITE_BACKEND_URL` fallback from line 3. -/
def API_BASE : String := "http://localhost:8000"

/-- A contact as served by `/api/users` (fields read at lines 160-164). -/
structure User where
  id : Nat
  username : String
  email : String
  status : String
deriving DecidableEq, Repr

/-- A message as served by the backend (fields read at lines 175-176). -/
structure Message where
  id : Nat
  senderId : Nat
  receiverId : Nat
  message : String
deriving DecidableEq, Repr

/-- JSON request bodies built by `JSON.stringify` at the three POST sites,
kept structured (pre-serialization). -/
inductive Body where
  | loginBody (email password : String)
  | registerBody (username email password : String)
  | sendMessage (receiverId : Nat) (message : String)
deriving DecidableEq, Repr

inductive HttpMethod where
  | get
  | post
deriving DecidableEq, Repr

/-- The argument the client hands to `fetch`. -/
structure Request where
  method : HttpMethod
  url : String
  headers : List (String × String)
  body : Option Body
deriving DecidableEq, Repr

/-! ## useAuth (lines 5-47) -/

namespace useAuth

/-- Hook state of one `useAuth()` call site: `token` and `user`
(lines 6-7). -/
structure HookState where
  token : String
  user : Option User
deriving DecidableEq, Repr

/-- Hook state at mount: `useState(() => localStorage.getItem('token') || '')`
(line 6). -/
def hookInit (storage : Storage) : HookState :=
  { token := (getItem storage "token").getD "", user := none }

/-- Derived `headers` (lines 9-12): JSON content type always, and a bearer
`Authorization` entry exactly when `token` is truthy (non-empty). -/
def headers (token : String) : List (String × String) :=
  [("Content-Type", "application/json")]
    ++ (if token ≠ "" then [("Authorization", "Bearer " ++ token)] else [])

/-- Response body of `/api/auth/login` and `/api/auth/register` as the code
reads it: the HTTP `ok` flag and the `access_token` field. -/
structure AuthResponse where
  ok : Bool
  access_token : String
deriving DecidableEq, Repr

/-- Function `login` (lines 14-25): the request it issues, and — given the backend's
response — either the error it throws or the updated storage and token
(`localStorage.setItem('token', data.access_token); setToken(...)`). -/
def login (storage : Storage) (email password : String) (resp : AuthResponse) :
    Request × Except String (Storage × String) :=
  (⟨.post, API_BASE ++ "/api/auth/login",
     [("Content-Type", "application/json")], some (.loginBody email password)⟩,
   if resp.ok = false then .error "Login failed"
   else .ok (setItem storage "token" resp.access_token, resp.access_token))

/-- Function `register` (lines 27-38): same contract as `login` with a username
field and a different error message. -/
def registerCall (storage : Storage) (username email password : String)
    (resp : AuthResponse) : Request × Except String (Storage × String) :=
  (⟨.post, API_BASE ++ "/api/auth/register",
     [("Content-Type", "application/json")],
     some (.registerBody username email password)⟩,
   if resp.ok = false then .error "Register failed"
   else .ok (setItem storage "token" resp.access_token, resp.access_token))

/-- Function `logout` (lines 40-44): removes the persisted token, clears the hook's
token and user, and issues no request. -/
def logout (storage : Storage) (_h : HookState) :
    Storage × HookState × List Request :=
  (removeItem storage "token", { token := "", user := none }, [])

end useAuth

/-! ## App and AuthScreen (lines 49-105, 188-198)

`App`, `AuthScreen` and `ChatApp` each call `useAuth()` themselves, so each
holds an independent copy of the hook's `token` state; only `localStorage`
is shared between them. `AppState` bundles the storage, `App`'s own hook
token, `App`'s `ready` flag, and the `AuthScreen` state that the auth flow
touches. -/

/-- Which screen `App` returns (line 196-197). -/
inductive View where
  | authScreen
  | chatApp
deriving DecidableEq, Repr

/-- The `mode` toggle of `AuthScreen` (line 50). -/
inductive Mode where
  | loginMode
  | registerMode
deriving DecidableEq, Repr

/-- Combined state of the page while the auth flow runs: the shared
storage, `App`'s hook token and `ready` flag (lines 189-190), and
`AuthScreen`'s mode, form fields, error and its own hook token
(lines 50-56). -/
structure AppState where
  storage : Storage
  appToken : String
  ready : Bool
  mode : Mode
  username : String
  email : String
  password : String
  authError : String
  authToken : String
deriving DecidableEq, Repr

/-- Page load: both `useAuth()` instances hydrate `token` from storage
(line 6) and `ready` starts as `!!token` (line 190). -/
def appInit (storage : Storage) : AppState :=
  let t := (getItem storage "token").getD ""
  { storage := storage, appToken := t, ready := t != "", mode := .loginMode,
    username := "", email := "", password := "", authError := "",
    authToken := t }

/-- Render of `App` (line 196): `if (!ready || !token)` show the auth
screen, else the chat view. -/
def appRender (s : AppState) : View :=
  if s.ready = false ∨ s.appToken = "" then .authScreen else .chatApp

/-- Handler `AuthScreen.submit` (lines 58-74) given the backend's response: clear
the error, run `login`/`register` on `AuthScreen`'s own hook, then either
call `onAuthed()` (which sets `App.ready`, line 196's `setReady(true)`)
or catch and display the thrown message. `App`'s own `appToken` is not
touched: `setToken` runs on `AuthScreen`'s hook instance. -/
def submit (s : AppState) (resp : useAuth.AuthResponse) : AppState :=
  let r := match s.mode with
    | .loginMode => (useAuth.login s.storage s.email s.password resp).2
    | .registerMode =>
        (useAuth.registerCall s.storage s.username s.email s.password resp).2
  match r with
  | .ok (st, tk) =>
      { s with storage := st, authToken := tk, authError := "", ready := true }
  | .error m => { s with authError := m }

/-! ## ChatApp (lines 107-186) -/

/-- JS `String.prototype.trim` as used in `send`'s guard (line 139):
strip whitespace characters from both ends of the string. -/
def jsTrim (s : String) : String :=
  String.mk
    (((s.data.dropWhile Char.isWhitespace).reverse.dropWhile
        Char.isWhitespace).reverse)

/-- Component state of `ChatApp`: its own `useAuth()` token (line 108) and the
four `useState` fields of lines 109-112. -/
structure ChatState where
  token : String
  users : List User
  activeUser : Option User
  messages : List Message
  text : String
deriving DecidableEq, Repr

/-- State of `ChatApp` at mount: hook token hydrated from storage, empty lists. -/
def chatInit (storage : Storage) : ChatState :=
  { token := (getItem storage "token").getD "", users := [],
    activeUser := none, messages := [], text := "" }

/-- Request `GET /api/users` from the user-load effect (line 118); no custom
headers are passed. -/
def usersRequest : Request :=
  ⟨.get, API_BASE ++ "/api/users", [], none⟩

/-- Request `GET /api/messages/{id}` from the message-load effect (line 129),
carrying the hook's derived headers. -/
def getMessagesRequest (token : String) (uid : Nat) : Request :=
  ⟨.get, API_BASE ++ "/api/messages/" ++ toString uid,
   useAuth.headers token, none⟩

/-- Request `POST /api/messages` from `send` (lines 140-144): derived headers and
the raw `text` in the body. -/
def sendMessageRequest (token : String) (uid : Nat) (text : String) : Request :=
  ⟨.post, API_BASE ++ "/api/messages", useAuth.headers token,
   some (.sendMessage uid text)⟩

/-- Body of the user-load effect up to its `fetch` (lines 115-124):
`if (!token) return` then request the contact list. -/
def usersEffect (s : ChatState) : List Request :=
  if s.token = "" then [] else [usersRequest]

/-- Body of the message-load effect up to its `fetch` (lines 126-135):
`if (!token || !activeUser) return` then request the active contact's
history. -/
def messagesEffect (s : ChatState) : List Request :=
  match s.activeUser with
  | none => []
  | some u => if s.token = "" then [] else [getMessagesRequest s.token u.id]

/-- React re-runs an effect after a render in which a dependency changed:
the user-load effect depends on `[token]` (line 124), the message-load
effect on `[token, activeUser]` (line 135). -/
def effectsAfter (old new : ChatState) : List Request :=
  (if new.token ≠ old.token then usersEffect new else [])
    ++ (if new.token ≠ old.token ∨ new.activeUser ≠ old.activeUser then
          messagesEffect new else [])

/-- Both effects also run once at mount. -/
def mountRequests (s : ChatState) : List Request :=
  usersEffect s ++ messagesEffect s

/-- Events driving `ChatApp`: arrival of the contact-list response
(lines 119-121), a contact click (line 160), arrival of a message-history
response (line 131), a send-form submit up to its `fetch` (lines 137-144),
arrival of the send response (lines 145-147), typing (line 180), and the
logout click (line 156). -/
inductive CEvent where
  | usersLoaded (data : List User)
  | selectUser (u : User)
  | msgsLoaded (data : List Message)
  | submitSend
  | sendResp (m : Message)
  | setText (t : String)
  | logoutClick
deriving DecidableEq, Repr

/-- State change and directly-issued requests of one event. `selectUser`
is guarded by membership in the rendered contact list (only listed users
have a button, line 159); `submitSend` mirrors the guard
`if (!text.trim() || !activeUser) return` (line 139) and issues the POST
without touching state; `sendResp` appends the server's object and clears
the input (lines 145-147); `logoutClick` runs `logout` on `ChatApp`'s own
hook, so within `ChatState` it clears `token`. -/
def applyEvent (s : ChatState) : CEvent → ChatState × List Request
  | .usersLoaded data =>
      ({ s with
          users := data,
          activeUser :=
            if s.activeUser = none ∧ data ≠ [] then data.head?
            else s.activeUser },
       [])
  | .selectUser u =>
      (if u ∈ s.users then { s with activeUser := some u } else s, [])
  | .msgsLoaded data => ({ s with messages := data }, [])
  | .submitSend =>
      match s.activeUser with
      | none => (s, [])
      | some u =>
          if jsTrim s.text = "" then (s, [])
          else (s, [sendMessageRequest s.token u.id s.text])
  | .sendResp m => ({ s with messages := s.messages ++ [m], text := "" }, [])
  | .setText t => ({ s with text := t }, [])
  | .logoutClick => ({ s with token := "" }, [])

/-- One step of the chat view: apply the event, then re-run the effects
whose dependencies changed. -/
def cstep (s : ChatState) (e : CEvent) : ChatState × List Request :=
  let (s', rs) := applyEvent s e
  (s', rs ++ effectsAfter s s')

/-- Run a sequence of events, collecting all issued requests. -/
def crun : ChatState → List CEvent → ChatState × List Request
  | s, [] => (s, [])
  | s, e :: es =>
      ((crun (cstep s e).1 es).1, (cstep s e).2 ++ (crun (cstep s e).1 es).2)

/-- The conversation header (line 172): the active contact's username, or
the placeholder. -/
def displayedHeader (s : ChatState) : String :=
  match s.activeUser with
  | some u => u.username
  | none => "Select a contact"

/-- A request targets the contact-list endpoint. -/
def isUsersFetch (r : Request) : Bool :=
  r.url == API_BASE ++ "/api/users"

/-- A chat state whose input text is whitespace only. -/
def blankSendState : ChatState :=
  { token := "tok", users := [⟨1, "alice", "a@x.com", "online"⟩],
    activeUser := some ⟨1, "alice", "a@x.com", "online"⟩,
    messages := [], text := "   " }

/-- A chat state with an active contact and non-blank input text. -/
def validSendState : ChatState :=
  { token := "tok", users := [⟨1, "alice", "a@x.com", "online"⟩],
    activeUser := some ⟨1, "alice", "a@x.com", "online"⟩,
    messages := [], text := "hello" }

/-- A chat state whose input text has whitespace around non-whitespace. -/
def paddedSendState : ChatState :=
  { token := "tok", users := [⟨1, "alice", "a@x.com", "online"⟩],
    activeUser := some ⟨1, "alice", "a@x.com", "online"⟩,
    messages := [], text := "  hi  " }

/-! ## Helper lemmas -/

theorem getItem_setItem (st : Storage) (k v : String) :
    getItem (setItem st k v) k = some v := by
  simp [getItem, setItem, List.find?]

theorem getItem_removeItem (st : Storage) (k : String) :
    getItem (removeItem st k) k = none := by
  induction st with
  | nil => rfl
  | cons a l ih =>
      by_cases h : a.1 = k
      · rw [show removeItem (a :: l) k = removeItem l k by
            simp [removeItem, List.filter_cons, h]]
        exact ih
      · rw [show removeItem (a :: l) k = a :: removeItem l k by
            simp [removeItem, List.filter_cons, h]]
        unfold getItem at ih ⊢
        rw [List.find?_cons_of_neg _ (by simp [h])]
        exact ih

theorem all_dropWhile {α : Type} (p : α → Bool) (l : List α) :
    (l.dropWhile p).all p = l.all p := by
  induction l with
  | nil => rfl
  | cons a t ih =>
      by_cases h : p a <;> simp [List.dropWhile_cons, h, ih]

theorem jsTrim_eq_empty_iff (s : String) :
    jsTrim s = "" ↔ s.data.all Char.isWhitespace = true := by
  unfold jsTrim
  rw [show ("" : String) = String.mk [] from rfl, String.ext_iff]
  simp only [List.reverse_eq_nil_iff, List.dropWhile_eq_nil_iff,
    List.mem_reverse]
  rw [← List.all_eq_true, all_dropWhile, List.all_eq_true]

theorem isUsersFetch_getMessagesRequest (tok : String) (uid : Nat) :
    isUsersFetch (getMessagesRequest tok uid) = false := by
  simp only [isUsersFetch, getMessagesRequest, beq_eq_false_iff_ne, ne_eq]
  intro h
  have hlen := congrArg String.length h
  simp only [String.length_append] at hlen
  have h1 : API_BASE.length = 21 := rfl
  have h2 : ("/api/messages/" : String).length = 14 := rfl
  have h3 : ("/api/users" : String).length = 10 := rfl
  omega

theorem isUsersFetch_sendMessageRequest (tok : String) (uid : Nat)
    (text : String) :
    isUsersFetch (sendMessageRequest tok uid text) = false := by
  simp [isUsersFetch, sendMessageRequest]
  decide

theorem messagesEffect_no_usersFetch (s : ChatState) :
    (messagesEffect s).filter isUsersFetch = [] := by
  unfold messagesEffect
  cases s.activeUser with
  | none => rfl
  | some u =>
      by_cases h : s.token = "" <;>
        simp [h, List.filter_cons, isUsersFetch_getMessagesRequest]

theorem applyEvent_no_usersFetch (s : ChatState) (e : CEvent) :
    ((applyEvent s e).2).filter isUsersFetch = [] := by
  cases e with
  | usersLoaded data => rfl
  | selectUser u => by_cases h : u ∈ s.users <;> simp [applyEvent, h]
  | msgsLoaded data => rfl
  | submitSend =>
      cases hu : s.activeUser with
      | none => simp [applyEvent, hu]
      | some u =>
          by_cases h : jsTrim s.text = "" <;>
            simp [applyEvent, hu, h, List.filter_cons,
              isUsersFetch_sendMessageRequest]
  | sendResp m => rfl
  | setText t => rfl
  | logoutClick => rfl

theorem applyEvent_token (s : ChatState) (e : CEvent) :
    (applyEvent s e).1.token = s.token ∨ (applyEvent s e).1.token = "" := by
  cases e with
  | usersLoaded data => left; rfl
  | selectUser u => by_cases h : u ∈ s.users <;> simp [applyEvent, h]
  | msgsLoaded data => left; rfl
  | submitSend =>
      cases hu : s.activeUser with
      | none => simp [applyEvent, hu]
      | some u =>
          by_cases h : jsTrim s.text = "" <;> simp [applyEvent, hu, h]
  | sendResp m => left; rfl
  | setText t => left; rfl
  | logoutClick => right; rfl

theorem not_usersFetch_of_mem_messagesEffect {s : ChatState} {r : Request}
    (hr : r ∈ messagesEffect s) : isUsersFetch r = false := by
  unfold messagesEffect at hr
  cases hu : s.activeUser with
  | none => rw [hu] at hr; simp at hr
  | some u =>
      rw [hu] at hr
      by_cases h : s.token = ""
      · simp [h] at hr
      · simp [h] at hr
        rw [hr]
        exact isUsersFetch_getMessagesRequest _ _

theorem effectsAfter_no_usersFetch (old new : ChatState)
    (h : new.token = old.token ∨ new.token = "") :
    (effectsAfter old new).filter isUsersFetch = [] := by
  unfold effectsAfter
  rw [List.filter_append]
  by_cases ht : new.token = old.token
  · simp only [ht, ne_eq, not_true_eq_false, if_neg, ite_false,
      List.filter_nil, List.nil_append, false_or]
    simp [messagesEffect_no_usersFetch]
    exact fun a _ ha => not_usersFetch_of_mem_messagesEffect ha
  · have hz : new.token = "" := h.resolve_left ht
    simp [ht, usersEffect, hz, messagesEffect_no_usersFetch]
    exact fun a _ ha => not_usersFetch_of_mem_messagesEffect ha

theorem cstep_no_usersFetch (s : ChatState) (e : CEvent) :
    ((cstep s e).2).filter isUsersFetch = [] := by
  unfold cstep
  rw [List.filter_append, applyEvent_no_usersFetch,
    effectsAfter_no_usersFetch s (applyEvent s e).1 (applyEvent_token s e)]
  rfl

theorem crun_no_usersFetch (s : ChatState) (events : List CEvent) :
    ((crun s events).2).filter isUsersFetch = [] := by
  induction events generalizing s with
  | nil => rfl
  | cons e es ih =>
      simp [crun, List.filter_append, cstep_no_usersFetch, ih]

/-! ## Claim theorems -/

/-- Claim C1: when the backend answers a login call with success and a body
carrying `access_token` t, the client persists t under the fixed storage key
`token`, a chat session hydrated from that storage holds t, and both kinds of
authenticated request the chat view issues (get messages, send message) carry
the header `Authorization: Bearer t`. -/
theorem login_persists_token_and_bearer_header
    (storage : Storage) (email password : String)
    (resp : useAuth.AuthResponse)
    (hok : resp.ok = true) (ht : resp.access_token ≠ "")
    (uid : Nat) (txt : String) :
    (useAuth.login storage email password resp).2
        = .ok (setItem storage "token" resp.access_token, resp.access_token) ∧
    getItem (setItem storage "token" resp.access_token) "token"
        = some resp.access_token ∧
    (chatInit (setItem storage "token" resp.access_token)).token
        = resp.access_token ∧
    ("Authorization", "Bearer " ++ resp.access_token)
        ∈ (getMessagesRequest resp.access_token uid).headers ∧
    ("Authorization", "Bearer " ++ resp.access_token)
        ∈ (sendMessageRequest resp.access_token uid txt).headers := by
  refine ⟨?_, ?_, ?_, ?_, ?_⟩
  · simp [useAuth.login, hok]
  · exact getItem_setItem storage "token" resp.access_token
  · simp [chatInit, getItem_setItem]
  · simp [getMessagesRequest, useAuth.headers, ht]
  · simp [sendMessageRequest, useAuth.headers, ht]

/-- Claim C2: when the backend answers a login or register submission with a
non-success HTTP status, `AuthScreen` displays a non-empty error message
(`Login failed` or `Register failed` depending on the mode), no token is
persisted or set, `ready` is not flipped, and the rendered view does not
change (no transition to the chat view). -/
theorem auth_failure_shows_error_and_no_transition
    (s : AppState) (resp : useAuth.AuthResponse) (hfail : resp.ok = false) :
    (submit s resp).authError
        = (match s.mode with
           | .loginMode => "Login failed"
           | .registerMode => "Register failed") ∧
    (submit s resp).authError ≠ "" ∧
    (submit s resp).storage = s.storage ∧
    (submit s resp).authToken = s.authToken ∧
    (submit s resp).appToken = s.appToken ∧
    (submit s resp).ready = s.ready ∧
    appRender (submit s resp) = appRender s := by
  cases hm : s.mode <;>
    simp [submit, useAuth.login, useAuth.registerCall, hm, hfail, appRender]

/-- Claim C3, evaluated at the failing input (code bug): starting with no
token the top-level component renders the auth screen; after a successful
login submission answered with `access_token` tok1 the token is persisted
and `ready` is set, yet `App` still renders the auth screen — its own
`useAuth()` token state is a separate hook instance that `AuthScreen` never
updates, so the `!token` check at line 196 keeps failing. The claimed flip
to the chat view does not happen. -/
theorem app_stays_on_auth_after_login :
    appRender (appInit []) = .authScreen ∧
    (submit (appInit []) ⟨true, "tok1"⟩).ready = true ∧
    getItem (submit (appInit []) ⟨true, "tok1"⟩).storage "token"
        = some "tok1" ∧
    appRender (submit (appInit []) ⟨true, "tok1"⟩) = .authScreen := by
  decide

/-- Claim C4 counterexample: a reachable UI state shows user A's messages
under user B's conversation header. After the contact list loads (alice is
auto-selected) and alice's history arrives, clicking bob switches the header
to `bob` while the request for bob's history is still in flight — the
displayed message list still holds alice's history. -/
theorem stale_messages_shown_under_new_contact :
    displayedHeader
        (crun (chatInit [("token", "tok")])
          [.usersLoaded
              [⟨1, "alice", "a@x.com", "online"⟩,
               ⟨2, "bob", "b@x.com", "online"⟩],
           .msgsLoaded [⟨10, 1, 99, "hi from alice"⟩],
           .selectUser ⟨2, "bob", "b@x.com", "online"⟩]).1
      = "bob" ∧
    (crun (chatInit [("token", "tok")])
        [.usersLoaded
            [⟨1, "alice", "a@x.com", "online"⟩,
             ⟨2, "bob", "b@x.com", "online"⟩],
         .msgsLoaded [⟨10, 1, 99, "hi from alice"⟩],
         .selectUser ⟨2, "bob", "b@x.com", "online"⟩]).1.messages
      = [⟨10, 1, 99, "hi from alice"⟩] ∧
    getMessagesRequest "tok" 2
      ∈ (crun (chatInit [("token", "tok")])
          [.usersLoaded
              [⟨1, "alice", "a@x.com", "online"⟩,
               ⟨2, "bob", "b@x.com", "online"⟩],
           .msgsLoaded [⟨10, 1, 99, "hi from alice"⟩],
           .selectUser ⟨2, "bob", "b@x.com", "online"⟩]).2 := by
  decide

/-- Claim C4 amended: switching the active contact leaves the displayed
message list untouched (it is not cleared eagerly); only the arrival of the
new contact's history replaces the list, wholesale, with the fetched data. -/
theorem messages_kept_on_switch_replaced_on_arrival
    (s : ChatState) (u : User) (data : List Message) :
    ((cstep s (.selectUser u)).1).messages = s.messages ∧
    ((cstep s (.msgsLoaded data)).1).messages = data := by
  constructor
  · by_cases h : u ∈ s.users <;> simp [cstep, applyEvent, h]
  · rfl

/-- Claim C5: a send attempt whose input text is empty or whitespace-only,
or made with no active contact, issues no network request and leaves the
whole chat state — the displayed message list in particular — unchanged. -/
theorem blank_or_no_contact_send_is_noop (s : ChatState)
    (h : s.text.data.all Char.isWhitespace = true ∨ s.activeUser = none) :
    cstep s .submitSend = (s, []) := by
  have heff : effectsAfter s s = [] := by simp [effectsAfter]
  cases hu : s.activeUser with
  | none => simp [cstep, applyEvent, hu, heff]
  | some u =>
      have hws : s.text.data.all Char.isWhitespace = true := by
        rcases h with h | h
        · exact h
        · rw [hu] at h; exact absurd h (by simp)
      have htrim : jsTrim s.text = "" := (jsTrim_eq_empty_iff s.text).mpr hws
      simp [cstep, applyEvent, hu, htrim, heff]

/-- Claim C6: on a valid send (an active contact and text containing a
non-whitespace character) the submit issues exactly the POST request and
changes nothing in the displayed state (no optimistic insertion); when the
server responds with the created message object, exactly that object is
appended at the end of the displayed list. -/
theorem send_appends_server_response_after_reply
    (s : ChatState) (u : User) (m : Message)
    (hu : s.activeUser = some u)
    (ht : s.text.data.all Char.isWhitespace = false) :
    cstep s .submitSend = (s, [sendMessageRequest s.token u.id s.text]) ∧
    (cstep s (.sendResp m)).1.messages = s.messages ++ [m] ∧
    (cstep s (.sendResp m)).2 = [] := by
  have htrim : jsTrim s.text ≠ "" := by
    rw [ne_eq, jsTrim_eq_empty_iff, ht]
    simp
  have heff : effectsAfter s s = [] := by simp [effectsAfter]
  refine ⟨?_, ?_, ?_⟩
  · simp [cstep, applyEvent, hu, htrim, heff]
  · rfl
  · simp [cstep, applyEvent, effectsAfter]

/-- Claim C7: `logout` clears the token from the hook state and removes it
from persisted storage, issues no network request, and a subsequent page
reload (re-running `App` from the cleared storage) renders the auth screen,
not the chat view. -/
theorem logout_clears_token_no_request_reload_shows_auth
    (storage : Storage) (h : useAuth.HookState) :
    (useAuth.logout storage h).2.1.token = "" ∧
    (useAuth.logout storage h).2.1.user = none ∧
    (useAuth.logout storage h).2.2 = [] ∧
    getItem (useAuth.logout storage h).1 "token" = none ∧
    appRender (appInit (useAuth.logout storage h).1) = .authScreen := by
  refine ⟨rfl, rfl, rfl, getItem_removeItem storage "token", ?_⟩
  simp [useAuth.logout, appInit, appRender, getItem_removeItem]

/-- Claim C8: the request headers are a function of the current token that
always contains the JSON content-type header, and whose `Authorization`
entries are exactly the single bearer header `Bearer <token>` when the token
is non-empty and none when it is empty. -/
theorem headers_content_type_always_bearer_iff (token : String) :
    ("Content-Type", "application/json") ∈ useAuth.headers token ∧
    (useAuth.headers token).filter (fun p => p.1 == "Authorization")
      = (if token = "" then []
         else [("Authorization", "Bearer " ++ token)]) := by
  by_cases h : token = "" <;> simp [useAuth.headers, h, List.filter_cons]

/-- Claim C9: entering an authenticated chat session (mount with a
non-empty stored token) fetches the contact list exactly once — no event
sequence afterwards ever re-issues the contact-list request — and when the
fetched list arrives while no contact is active and the list is non-empty,
its first element becomes the active contact. -/
theorem contact_list_fetched_once_and_first_selected
    (t : String) (ht : t ≠ "") (events : List CEvent)
    (s : ChatState) (ha : s.activeUser = none) (u : User)
    (rest : List User) :
    ((mountRequests (chatInit (setItem [] "token" t))
        ++ (crun (chatInit (setItem [] "token" t)) events).2).filter
          isUsersFetch).length = 1 ∧
    (applyEvent s (.usersLoaded (u :: rest))).1.activeUser = some u := by
  constructor
  · rw [List.filter_append, crun_no_usersFetch, List.append_nil]
    have h1 : usersEffect (chatInit (setItem [] "token" t))
        = [usersRequest] := by
      simp [usersEffect, chatInit, getItem_setItem, ht]
    unfold mountRequests
    rw [List.filter_append, h1,
      show messagesEffect (chatInit (setItem [] "token" t)) = [] from rfl]
    decide
  · simp [applyEvent, ha]

/-- Claim C10: a valid send transmits the raw input text: text containing
a non-whitespace character passes the guard even with leading or trailing
whitespace, and the request body carries the text exactly as typed, not its
trimmed form. -/
theorem send_transmits_raw_untrimmed_text
    (s : ChatState) (u : User)
    (hu : s.activeUser = some u)
    (ht : s.text.data.all Char.isWhitespace = false) :
    (cstep s .submitSend).2 = [sendMessageRequest s.token u.id s.text] ∧
    (sendMessageRequest s.token u.id s.text).body
      = some (.sendMessage u.id s.text) := by
  have htrim : jsTrim s.text ≠ "" := by
    rw [ne_eq, jsTrim_eq_empty_iff, ht]
    simp
  have heff : effectsAfter s s = [] := by simp [effectsAfter]
  constructor
  · simp [cstep, applyEvent, hu, htrim, heff]
  · rfl

/-! ## Witnesses -/

theorem login_persists_token_and_bearer_header_witness :
    (useAuth.login [] "a@b.com" "x" ⟨true, "tok1"⟩).2
        = .ok (setItem [] "token" "tok1", "tok1") ∧
    getItem (setItem [] "token" "tok1") "token" = some "tok1" ∧
    (chatInit (setItem [] "token" "tok1")).token = "tok1" ∧
    ("Authorization", "Bearer " ++ "tok1")
        ∈ (getMessagesRequest "tok1" 5).headers ∧
    ("Authorization", "Bearer " ++ "tok1")
        ∈ (sendMessageRequest "tok1" 5 "hi").headers :=
  login_persists_token_and_bearer_header [] "a@b.com" "x" ⟨true, "tok1"⟩ rfl
    (by decide) 5 "hi"

theorem auth_failure_shows_error_witness :
    (submit (appInit []) ⟨false, "z"⟩).authError = "Login failed" ∧
    (submit (appInit []) ⟨false, "z"⟩).authError ≠ "" ∧
    (submit (appInit []) ⟨false, "z"⟩).storage = (appInit []).storage ∧
    (submit (appInit []) ⟨false, "z"⟩).authToken = (appInit []).authToken ∧
    (submit (appInit []) ⟨false, "z"⟩).appToken = (appInit []).appToken ∧
    (submit (appInit []) ⟨false, "z"⟩).ready = (appInit []).ready ∧
    appRender (submit (appInit []) ⟨false, "z"⟩) = appRender (appInit []) :=
  auth_failure_shows_error_and_no_transition (appInit []) ⟨false, "z"⟩ rfl

theorem blank_or_no_contact_send_is_noop_witness :
    cstep blankSendState .submitSend = (blankSendState, []) :=
  blank_or_no_contact_send_is_noop blankSendState (Or.inl (by decide))

theorem send_appends_server_response_after_reply_witness :
    cstep validSendState .submitSend
        = (validSendState, [sendMessageRequest "tok" 1 "hello"]) ∧
    (cstep validSendState (.sendResp ⟨7, 9, 1, "hello"⟩)).1.messages
        = validSendState.messages ++ [⟨7, 9, 1, "hello"⟩] ∧
    (cstep validSendState (.sendResp ⟨7, 9, 1, "hello"⟩)).2 = [] :=
  send_appends_server_response_after_reply validSendState
    ⟨1, "alice", "a@x.com", "online"⟩ ⟨7, 9, 1, "hello"⟩ rfl (by decide)

theorem contact_list_fetched_once_witness :
    ((mountRequests (chatInit (setItem [] "token" "tok"))
        ++ (crun (chatInit (setItem [] "token" "tok"))
              [.usersLoaded [⟨1, "alice", "a@x.com", "online"⟩],
               .logoutClick]).2).filter isUsersFetch).length = 1 ∧
    (applyEvent
        { token := "tok", users := [], activeUser := none, messages := [],
          text := "" }
        (.usersLoaded (⟨1, "alice", "a@x.com", "online"⟩ :: []))).1.activeUser
      = some ⟨1, "alice", "a@x.com", "online"⟩ :=
  contact_list_fetched_once_and_first_selected "tok" (by decide)
    [.usersLoaded [⟨1, "alice", "a@x.com", "online"⟩], .logoutClick]
    { token := "tok", users := [], activeUser := none, messages := [],
      text := "" }
    rfl ⟨1, "alice", "a@x.com", "online"⟩ []

theorem send_transmits_raw_untrimmed_text_witness :
    (cstep paddedSendState .submitSend).2
        = [sendMessageRequest "tok" 1 "  hi  "] ∧
    (sendMessageRequest "tok" 1 "  hi  ").body
        = some (.sendMessage 1 "  hi  ") :=
  send_transmits_raw_untrimmed_text paddedSendState
    ⟨1, "alice", "a@x.com", "online"⟩ rfl (by decide)
